import Mathlib

set_option maxHeartbeats 1000000

/-
Verification of the job lifecycle and resilient-persistence utilities of the
automatic-ripping-machine repository (arm/ripper/utils.py), as a shallow
embedding.  External effects (the SQLAlchemy session commit, the process
table, the filesystem and the external block-copy tool) are modelled as
explicit oracles passed to the embedded functions; everything else is a
direct translation of the Python control flow.
-/

namespace ARM

/-- Python truthiness of an optional string: None and the empty string are falsy. -/
def pyTruthyOpt : Option String → Bool
  | none => false
  | some s => s != ""

/-- str(x) applied to an optional string: Python renders None as the string None. -/
def pyStrOpt : Option String → String
  | none => "None"
  | some s => s

/-- str(b) applied to a boolean: Python renders True and False capitalised. -/
def pyStrBool : Bool → String
  | true => "True"
  | false => "False"

/-- The .lower() method of Python strings: lowercase every character. -/
def pyLower (s : String) : String := String.mk (s.toList.map Char.toLower)

def listStartsWith : List Char → List Char → Bool
  | _, [] => true
  | [], _ :: _ => false
  | a :: as, b :: bs => a == b && listStartsWith as bs

def listContainsSub : List Char → List Char → Bool
  | [], pat => pat.isEmpty
  | h :: t, pat => listStartsWith (h :: t) pat || listContainsSub t pat

/-- The test of the source for a lock error, `"locked" in str(error)`:
substring containment. -/
def strContains (s pat : String) : Bool := listContainsSub s.toList pat.toList

/-- The Job record (arm/models).  Only the columns read or written by the
functions under verification are modelled.  Nullable text columns are
Option String; pid_hash stores the recorded process identity fingerprint
and start_time is in whole seconds. -/
structure Job where
  job_id : Nat
  devpath : String
  label : Option String
  crc_id : Option String
  title : Option String
  title_manual : Option String
  year : Option String
  poster_url : Option String
  video_type : Option String
  hasnicetitle : Bool
  status : String
  updated : Bool
  pid : Nat
  pid_hash : Int
  start_time : Int
  errors : Option String
deriving DecidableEq

/-- The args parameter of database_updater: either a field map, modelled as
the list of setattr effects in dict iteration order, or a value that is not
a dict, which signals rollback intent. -/
inductive UpdaterArgs where
  | mutations : List (Job → Job) → UpdaterArgs
  | rollback : UpdaterArgs

/-- Outcome of one pass over the retry loop of database_updater:
number of one-second sleeps performed, the sleep count at the moment of the
first successful commit (none when no commit succeeded), and the message of
a raised RuntimeError (none when the loop ran to completion). -/
structure LoopOut where
  sleeps : Nat
  firstSuccess : Option Nat
  raised : Option String
deriving DecidableEq

/-- The `for i in range(wait_time)` commit loop of database_updater.
The commit oracle gives the outcome of the attempt with the given index:
ok () models a successful db.session.commit, error e a commit raising an
exception whose str is e.  A locked error sleeps one second and continues;
any other error raises RuntimeError(str(error)) at once.  Note the source
has no break after a successful commit, so the loop keeps committing. -/
def commitLoopAux (commit : Nat → Except String Unit) :
    Nat → Nat → LoopOut → LoopOut
  | 0, _, acc => acc
  | remaining + 1, i, acc =>
    match commit i with
    | .ok _ =>
      commitLoopAux commit remaining (i + 1)
        { acc with firstSuccess := match acc.firstSuccess with
                                   | some f => some f
                                   | none => some acc.sleeps }
    | .error e =>
      if strContains e "locked" then
        commitLoopAux commit remaining (i + 1) { acc with sleeps := acc.sleeps + 1 }
      else { acc with raised := some e }

/-- Result of database_updater: result is ok b when the function returned b
and error e when it raised RuntimeError(e); job is the in-memory job after
the setattr pass; sleeps and firstSuccess record the retry behaviour. -/
structure UpdaterOutcome where
  result : Except String Bool
  job : Job
  sleeps : Nat
  firstSuccess : Option Nat

/-- database_updater(args, job, wait_time=90) from arm/ripper/utils.py.
A non-dict args rolls the session back and returns False.  Otherwise every
field mutation is applied to the in-memory job, then the commit loop runs;
when the loop finishes without raising the function logs success and
returns True, whether or not any commit succeeded. -/
def database_updater (commit : Nat → Except String Unit) (args : UpdaterArgs)
    (job : Job) (wait_time : Nat) : UpdaterOutcome :=
  match args with
  | .rollback => { result := .ok false, job := job, sleeps := 0, firstSuccess := none }
  | .mutations fs =>
    let job := fs.foldl (fun j f => f j) job
    let out := commitLoopAux commit wait_time 0 ⟨0, none, none⟩
    match out.raised with
    | some e => { result := .error e, job := job, sleeps := out.sleeps, firstSuccess := out.firstSuccess }
    | none => { result := .ok true, job := job, sleeps := out.sleeps, firstSuccess := out.firstSuccess }

/-- The status filter `m.Job.status.notin_(["fail", "success"])`. -/
def nonTerminal (j : Job) : Bool := j.status != "fail" && j.status != "success"

/-- The process table: for a pid, the identity fingerprint hash of the live
process with that pid, or none when psutil.pid_exists is false. -/
def ProcTable := Nat → Option Int

/-- The body of the clean_old_jobs loop for one active job.  When the pid
exists the recorded fingerprint is compared with the live one only to decide
whether to log that the job is currently running; the job is not modified in
either case.  Only when the pid does not exist is the job failed. -/
def sweepOne (procs : ProcTable) (job : Job) : Job :=
  match procs job.pid with
  | some h =>
    if job.pid_hash = h then job else job
  | none => { job with status := "fail" }

/-- clean_old_jobs from arm/ripper/utils.py: every job whose status is not
terminal is passed through sweepOne; terminal jobs are untouched.  The
source returns None; the model returns the updated store. -/
def clean_old_jobs (procs : ProcTable) (store : List Job) : List Job :=
  store.map (fun job => if nonTerminal job then sweepOne procs job else job)

/-- The stringified projection of j.get_d() restricted to the keys read by
job_dupe_check; every value goes through str(). -/
structure JobD where
  title : String
  year : String
  poster_url : String
  hasnicetitle : String
  video_type : String
deriving DecidableEq

def get_d (j : Job) : JobD :=
  { title := pyStrOpt j.title
    year := pyStrOpt j.year
    poster_url := pyStrOpt j.poster_url
    hasnicetitle := pyStrBool j.hasnicetitle
    video_type := pyStrOpt j.video_type }

/-- The query `filter_by(crc_id=..., status="success", hasnicetitle=True)`. -/
def dupeFilter (crc : String) (store : List Job) : List Job :=
  store.filter (fun j => j.crc_id == some crc && j.status == "success" && j.hasnicetitle)

/-- Result of job_dupe_check: the returned pair, the job after the updater
ran, and whether the prior-job query was issued at all. -/
structure DupeOut where
  is_dup : Bool
  results : Option (List JobD)
  job : Job
  queried : Bool

/-- job_dupe_check from arm/ripper/utils.py.  A job without crc_id returns
(False, None) before any query.  Otherwise prior successful rips with the
same crc and a nice title are collected into the stringified results dict;
when nonempty, title, year, poster_url, hasnicetitle and video_type of the
first result are written onto the current job through database_updater and
(True, results) is returned. -/
def job_dupe_check (commit : Nat → Except String Unit) (job : Job)
    (store : List Job) : DupeOut :=
  match job.crc_id with
  | none => ⟨false, none, job, false⟩
  | some crc =>
    let previous_rips := dupeFilter crc store
    let results := previous_rips.map get_d
    match results with
    | [] => ⟨false, none, job, true⟩
    | r0 :: rs =>
      let title : Option String := if r0.title ≠ "" then some r0.title else job.label
      let year : Option String := some (if r0.year ≠ "" then r0.year else "")
      let poster_url : Option String := if r0.poster_url ≠ "" then some r0.poster_url else none
      let nice : Bool := pyLower r0.hasnicetitle == "true"
      let video_type : Option String := if r0.hasnicetitle ≠ "" then some r0.video_type else some "unknown"
      let upd := database_updater commit
        (.mutations
          [fun j => { j with title := title },
           fun j => { j with year := year },
           fun j => { j with poster_url := poster_url },
           fun j => { j with hasnicetitle := nice },
           fun j => { j with video_type := video_type }]) job 90
      ⟨true, some (r0 :: rs), upd.job, true⟩

/-- Outcome of duplicate_run_check: either the function returns normally or
the process terminates through sys.exit with the given code. -/
inductive RunOutcome where
  | proceed : RunOutcome
  | exited : Nat → RunOutcome
deriving DecidableEq

/-- `int(round(abs(j.start_time - now).total_seconds()) / 60)` with whole
second timestamps: absolute difference in seconds, floor-divided by 60. -/
def minsLastRun (now : Int) (j : Job) : Nat := (j.start_time - now).natAbs / 60

/-- duplicate_run_check from arm/ripper/utils.py: scans the non-terminal
jobs on the same device path and exits with code 1 when one of them started
at most about a minute ago. -/
def duplicate_run_check (now : Int) (dev_path : String) (store : List Job) : RunOutcome :=
  let running_jobs := store.filter (fun j => nonTerminal j && j.devpath == dev_path)
  if 1 ≤ running_jobs.length then
    if running_jobs.any (fun j => decide (minsLastRun now j ≤ 1)) then .exited 1
    else .proceed
  else .proceed

/-- The configuration values read by rip_data. -/
structure Cfg where
  RAW_PATH : String
  COMPLETED_PATH : String

/-- The filesystem and external tool oracle for rip_data: which paths exist
already, whether os.makedirs succeeds on a fresh path, and the outcome of
the dd block copy (returncode and output on CalledProcessError). -/
structure FsEnv where
  pathExists : String → Bool
  mkdirOk : String → Bool
  ddResult : Except (Int × String) Unit

/-- make_dir from arm/ripper/utils.py: some true when the directory was
created, some false when it already existed, none when os.makedirs raised
OSError and the function called sys.exit. -/
def make_dir (env : FsEnv) (path : String) : Option Bool :=
  if env.pathExists path = false then
    if env.mkdirOk path then some true else none
  else some false

/-- Observable filesystem effects of one rip_data run. -/
structure Effects where
  unlinked : List String
  renamed : List (String × String)
  rmtreeAttempted : List String
deriving DecidableEq

/-- Result of rip_data: exited models sys.exit, raised an exception escaping
the function (from database_updater), returned the normal return with its
effects and the final job. -/
inductive RipResult where
  | exited : RipResult
  | raised : String → Effects → RipResult
  | returned : Bool → Effects → Job → RipResult
deriving DecidableEq

/-- convert_job_type from arm/ripper/utils.py. -/
def convert_job_type (video_type : Option String) : String :=
  if video_type = some "movie" then "movies"
  else if video_type = some "series" then "tv"
  else "unidentified"

/-- The disc label rip_data works with after its first statement replaced an
empty or missing label with the default. -/
def dataDiscLabel (j0 : Job) : String :=
  if j0.label = some "" ∨ j0.label = none then "data-disc" else j0.label.getD ""

/-- The first statement of rip_data: a missing or empty disc label is
replaced with the default data-disc. -/
def normalizeDataJob (j0 : Job) : Job :=
  if j0.label = some "" ∨ j0.label = none then { j0 with label := some "data-disc" } else j0

/-- The body of rip_data after the label default, from arm/ripper/utils.py.
random_time stands for the time suffix computed for the collision fallback;
path joins are modelled as slash concatenation.  The shutil.rmtree at the
end catches OSError, so an attempt is recorded whether or not removal can
succeed. -/
def rip_data_core (cfgv : Cfg) (env : FsEnv) (commit : Nat → Except String Unit)
    (random_time : String) (job : Job) : RipResult :=
  let l := job.label.getD ""
  let raw_path := cfgv.RAW_PATH ++ "/" ++ l
  let final_root := cfgv.COMPLETED_PATH ++ "/" ++ convert_job_type job.video_type
  match make_dir env raw_path with
  | none => .exited
  | some ok =>
    let step :=
      if ok then some (raw_path, l)
      else
        let rp2 := cfgv.RAW_PATH ++ "/" ++ l ++ "_" ++ random_time
        match make_dir env rp2 with
        | some true => some (rp2, l ++ "_" ++ random_time)
        | _ => none
    match step with
    | none => .exited
    | some (raw_path2, final_file_name) =>
      let final_path := final_root ++ "/" ++ final_file_name
      let incomplete_filename := raw_path2 ++ "/" ++ l ++ ".part"
      match make_dir env final_path with
      | none => .exited
      | some _ =>
        match env.ddResult with
        | .ok _ =>
          let full_final_file := final_path ++ "/" ++ l ++ ".iso"
          .returned true ⟨[], [(incomplete_filename, full_final_file)], [raw_path2]⟩ job
        | .error (rc, output) =>
          let err := "Data rip failed with code: " ++ toString rc ++ "(" ++ output ++ ")"
          let upd := database_updater commit
            (.mutations
              [fun jb => { jb with status := "fail" },
               fun jb => { jb with errors := some err }]) job 90
          match upd.result with
          | .error e => .raised e ⟨[incomplete_filename], [], []⟩
          | .ok _ => .returned false ⟨[incomplete_filename], [], [raw_path2]⟩ upd.job

/-- rip_data from arm/ripper/utils.py: default the label, then run the
body. -/
def rip_data (cfgv : Cfg) (env : FsEnv) (commit : Nat → Except String Unit)
    (random_time : String) (j0 : Job) : RipResult :=
  rip_data_core cfgv env commit random_time (normalizeDataJob j0)

/-- Result of check_for_wait: the job after the final commit and the number
of seconds slept inside the wait loop. -/
structure WaitOut where
  job : Job
  sleptSeconds : Nat
deriving DecidableEq

/-- The `while sleep_time < cfg MANUAL_WAIT_TIME` loop of check_for_wait.
Each tick sleeps five seconds, then db.session.refresh re-reads the job;
the UI layer only ever writes title_manual, so the refresh is modelled as
replacing that field from the override oracle indexed by elapsed seconds.
A truthy override sets updated and hasnicetitle and breaks. -/
def waitAux (override : Nat → Option String) (ceiling : Nat)
    (sleep_time : Nat) (job : Job) : Job × Nat :=
  if h : sleep_time < ceiling then
    let st := sleep_time + 5
    let job1 := { job with title_manual := override st }
    if pyTruthyOpt job1.title_manual then
      ({ job1 with updated := true, hasnicetitle := true }, st)
    else waitAux override ceiling st job1
  else (job, sleep_time)
termination_by ceiling - sleep_time
decreasing_by simp_wf; omega

/-- check_for_wait from arm/ripper/utils.py: when manual waiting is enabled
the job is committed as waiting, the wait loop runs, and on exit the job is
committed as active. -/
def check_for_wait (manual_wait : Bool) (ceiling : Nat)
    (override : Nat → Option String) (job : Job) : WaitOut :=
  if manual_wait then
    let job1 := { job with status := "waiting" }
    let res := waitAux override ceiling 0 job1
    { job := { res.1 with status := "active" }, sleptSeconds := res.2 }
  else { job := job, sleptSeconds := 0 }

/-- A sample job used by the concrete evaluations below. -/
def job0 : Job :=
  { job_id := 1, devpath := "/dev/sr0", label := some "CDROM", crc_id := none,
    title := none, title_manual := none, year := none, poster_url := none,
    video_type := none, hasnicetitle := false, status := "active",
    updated := false, pid := 4242, pid_hash := 7, start_time := 0, errors := none }

/-- A commit oracle on which every attempt raises a locked error. -/
def lockedCommit : Nat → Except String Unit := fun _ => .error "database is locked"

/-- A commit oracle on which every attempt succeeds. -/
def okCommit : Nat → Except String Unit := fun _ => .ok ()

/-- A commit oracle raising locked errors on the first n attempts and
succeeding afterwards. -/
def lockedThenOk (n : Nat) : Nat → Except String Unit :=
  fun k => if k < n then Except.error "database is locked" else Except.ok ()

/-- A commit oracle whose first attempt raises an error that is not a lock
error. -/
def badCommit : Nat → Except String Unit := fun _ => Except.error "disk failure"

/-- A process table where pid 4242 is alive with fingerprint 8 (different
from the fingerprint 7 recorded on job0). -/
def procsMismatch : ProcTable := fun p => if p = 4242 then some 8 else none

/-- An empty process table. -/
def procsNone : ProcTable := fun _ => none

/-- A prior successful rip sharing the fingerprint F1 with job0Crc. -/
def jobPrior : Job :=
  { job0 with
    job_id := 2, crc_id := some "F1", status := "success",
    hasnicetitle := true, title := some "Alpha (2001)", year := some "2001",
    poster_url := some "posterA", video_type := some "movie" }

/-- job0 carrying the content fingerprint F1. -/
def job0Crc : Job := { job0 with crc_id := some "F1" }

/-- A non-terminal job on /dev/sr0 started 30 seconds before time 1000. -/
def jobRecent : Job := { job0 with start_time := 970 }

/-- A non-terminal job on /dev/sr0 started 300 seconds before time 1000. -/
def jobOld : Job := { job0 with start_time := 700 }

/-- job0 without a disc label. -/
def jobNoLabel : Job := { job0 with label := none }

/-- A sample configuration. -/
def cfg0 : Cfg := { RAW_PATH := "/raw", COMPLETED_PATH := "/done" }

/-- A filesystem where nothing exists yet, directory creation succeeds and
the block copy fails with returncode 1. -/
def envFailDD : FsEnv :=
  { pathExists := fun _ => false, mkdirOk := fun _ => true,
    ddResult := Except.error (1, "boom") }

/-- A filesystem where nothing exists yet, directory creation succeeds and
the block copy succeeds. -/
def envOkDD : FsEnv :=
  { pathExists := fun _ => false, mkdirOk := fun _ => true,
    ddResult := Except.ok () }

/-- A manual override already submitted before the wait loop starts. -/
def overrideAlpha : Nat → Option String := fun _ => some "Alpha"

/-- When every commit attempt from index i on succeeds, the loop never
sleeps again, never raises, and the first success is recorded at the
current sleep count. -/
theorem commitLoopAux_ok (commit : Nat → Except String Unit) :
    ∀ (remaining i : Nat), (∀ k, i ≤ k → commit k = Except.ok ()) →
    ∀ (s : Nat) (fss : Option Nat),
      commitLoopAux commit remaining i ⟨s, fss, none⟩ =
        ⟨s, if remaining = 0 then fss else some (fss.getD s), none⟩ := by
  intro remaining
  induction remaining with
  | zero => intro i h s fss; rfl
  | succ rem ih =>
    intro i h s fss
    have hci : commit i = Except.ok () := h i (Nat.le_refl i)
    have hrest : ∀ k, i + 1 ≤ k → commit k = Except.ok () := fun k hk => h k (by omega)
    cases fss with
    | none =>
      simp only [commitLoopAux, hci]
      rw [ih (i + 1) hrest s (some s)]
      cases rem <;> simp
    | some f =>
      simp only [commitLoopAux, hci]
      rw [ih (i + 1) hrest s (some f)]
      cases rem <;> simp

/-- When the attempts below N raise locked errors and the attempts from N
on succeed, the loop performs exactly N - i further sleeps from position i
and records the first success at that sleep count. -/
theorem commitLoopAux_locked (commit : Nat → Except String Unit) (N : Nat)
    (hl : ∀ k, k < N → ∃ e, commit k = Except.error e ∧ strContains e "locked" = true)
    (hok : ∀ k, N ≤ k → commit k = Except.ok ()) :
    ∀ (remaining i s : Nat), i ≤ N → N - i < remaining →
      commitLoopAux commit remaining i ⟨s, none, none⟩ =
        ⟨s + (N - i), some (s + (N - i)), none⟩ := by
  intro remaining
  induction remaining with
  | zero => intro i s h1 h2; omega
  | succ rem ih =>
    intro i s h1 h2
    by_cases hi : i = N
    · subst hi
      have hci : commit i = Except.ok () := hok i (Nat.le_refl i)
      have hrem : 0 < rem + 1 := by omega
      simp only [commitLoopAux, hci]
      rw [commitLoopAux_ok commit rem (i + 1) (fun k hk => hok k (by omega)) s (some s)]
      cases rem <;> simp
    · have hiN : i < N := by omega
      obtain ⟨e, hce, hlk⟩ := hl i hiN
      simp only [commitLoopAux, hce, hlk, if_true]
      rw [ih (i + 1) (s + 1) (by omega) (by omega)]
      have h3 : s + 1 + (N - (i + 1)) = s + (N - i) := by omega
      rw [h3]

/-- When every commit succeeds, database_updater applies the mutations,
returns True, and performs no sleep. -/
theorem database_updater_ok (commit : Nat → Except String Unit)
    (fs : List (Job → Job)) (job : Job) (wt : Nat)
    (hok : ∀ k, commit k = Except.ok ()) :
    database_updater commit (.mutations fs) job wt =
      { result := Except.ok true, job := fs.foldl (fun j f => f j) job,
        sleeps := 0, firstSuccess := if wt = 0 then none else some 0 } := by
  simp only [database_updater]
  rw [commitLoopAux_ok commit wt 0 (fun k _ => hok k) 0 none]
  cases wt <;> simp

/-- C1: the spec says that when every commit attempt of the retry loop
fails with a locked error and the wait budget of 90 attempts is exhausted,
database_updater fails and does not report success.  The code disagrees:
evaluating database_updater on an oracle where all 90 attempts raise
locked errors, the function slept 90 times, no commit ever succeeded, and
it still returned True to its caller. -/
theorem C1_retry_exhaustion_reports_success :
    (database_updater lockedCommit (.mutations []) job0 90).result = Except.ok true ∧
    (database_updater lockedCommit (.mutations []) job0 90).sleeps = 90 ∧
    (database_updater lockedCommit (.mutations []) job0 90).firstSuccess = none :=
  ⟨rfl, rfl, rfl⟩

/-- C3: with N consecutive locked errors followed by success, N below the
wait budget, database_updater applies every field mutation, returns True,
and exactly N one-second retry sleeps elapse, all before the first
successful commit. -/
theorem C3_locked_then_success (commit : Nat → Except String Unit)
    (args : List (Job → Job)) (job : Job) (N wt : Nat)
    (hN : N < wt)
    (hl : ∀ k, k < N → ∃ e, commit k = Except.error e ∧ strContains e "locked" = true)
    (hok : ∀ k, N ≤ k → commit k = Except.ok ()) :
    database_updater commit (.mutations args) job wt =
      { result := Except.ok true, job := args.foldl (fun j f => f j) job,
        sleeps := N, firstSuccess := some N } := by
  simp only [database_updater]
  rw [commitLoopAux_locked commit N hl hok wt 0 0 (by omega) (by omega)]
  simp

/-- C3 witness: three locked errors then success, against the default wait
budget of 90, with one concrete mutation. -/
theorem C3_witness :
    3 < 90 ∧
    database_updater (lockedThenOk 3)
        (.mutations [fun j => { j with status := "success" }]) job0 90 =
      { result := Except.ok true, job := { job0 with status := "success" },
        sleeps := 3, firstSuccess := some 3 } := by
  refine ⟨by omega, ?_⟩
  exact C3_locked_then_success (lockedThenOk 3) _ job0 3 90 (by omega)
    (fun k hk => ⟨"database is locked", by simp [lockedThenOk, hk], rfl⟩)
    (fun k hk => by simp [lockedThenOk]; omega)

/-- C4: a first commit attempt failing with an error whose text does not
contain locked is never retried: no sleep happens and the error is raised
to the caller as a RuntimeError instead of returning. -/
theorem C4_nonlock_error_raises (commit : Nat → Except String Unit)
    (args : List (Job → Job)) (job : Job) (wt : Nat) (e : String)
    (hwt : 0 < wt) (h0 : commit 0 = Except.error e)
    (hne : strContains e "locked" = false) :
    database_updater commit (.mutations args) job wt =
      { result := Except.error e, job := args.foldl (fun j f => f j) job,
        sleeps := 0, firstSuccess := none } := by
  obtain ⟨m, rfl⟩ : ∃ m, wt = m + 1 := ⟨wt - 1, by omega⟩
  simp only [database_updater, commitLoopAux, h0, hne]
  simp

/-- C4 witness: a non-lock disk failure on the first attempt with the
default wait budget. -/
theorem C4_witness :
    0 < 90 ∧ badCommit 0 = Except.error "disk failure" ∧
    strContains "disk failure" "locked" = false ∧
    database_updater badCommit (.mutations []) job0 90 =
      { result := Except.error "disk failure", job := job0,
        sleeps := 0, firstSuccess := none } :=
  ⟨by omega, rfl, rfl,
    C4_nonlock_error_raises badCommit [] job0 90 "disk failure" (by omega) rfl rfl⟩

/-- C2 counterexample: a non-terminal job whose recorded pid exists but
whose live fingerprint (8) differs from the recorded one (7) is NOT marked
fail by clean_old_jobs: the store is returned unchanged and the job status
is still active, refuting the claim that a fingerprint mismatch is treated
like a missing process. -/
theorem C2_mismatch_counterexample :
    procsMismatch job0.pid = some 8 ∧ job0.pid_hash ≠ 8 ∧
    nonTerminal job0 = true ∧
    clean_old_jobs procsMismatch [job0] = [job0] ∧
    job0.status = "active" :=
  ⟨rfl, by decide, rfl, rfl, rfl⟩

/-- C2 amended: for every non-terminal job, the sweep marks the job fail
exactly when its recorded pid no longer exists; when the pid exists the job
is left unchanged even if the live fingerprint differs from the recorded
one, and the source returns None rather than a count of corrected jobs. -/
theorem C2_sweep_amended (procs : ProcTable) (job : Job)
    (hnt : nonTerminal job = true) :
    (procs job.pid = none →
      clean_old_jobs procs [job] = [{ job with status := "fail" }]) ∧
    (∀ h, procs job.pid = some h → clean_old_jobs procs [job] = [job]) := by
  constructor
  · intro hp
    simp [clean_old_jobs, hnt, sweepOne, hp]
  · intro h hp
    simp only [clean_old_jobs, List.map, hnt, if_true, sweepOne, hp]
    by_cases hh : job.pid_hash = h <;> simp [hh]

/-- C2 witness: a non-terminal job whose pid 4242 is absent from the
process table is marked fail by the sweep. -/
theorem C2_sweep_amended_witness :
    nonTerminal job0 = true ∧ procsNone job0.pid = none ∧
    clean_old_jobs procsNone [job0] = [{ job0 with status := "fail" }] :=
  ⟨rfl, rfl, (C2_sweep_amended procsNone job0 rfl).1 rfl⟩

/-- C5: a job whose content fingerprint crc_id is unset makes
job_dupe_check return (False, None) with the job unchanged and without
issuing the prior-job query. -/
theorem C5_no_fingerprint (commit : Nat → Except String Unit) (job : Job)
    (store : List Job) (h : job.crc_id = none) :
    job_dupe_check commit job store = ⟨false, none, job, false⟩ := by
  simp [job_dupe_check, h]

/-- C5 witness: job0 has no fingerprint and the check returns (False, None)
without querying. -/
theorem C5_witness :
    job0.crc_id = none ∧
    job_dupe_check okCommit job0 [jobPrior] = ⟨false, none, job0, false⟩ :=
  ⟨rfl, C5_no_fingerprint okCommit job0 [jobPrior] rfl⟩

/-- C6: when the prior-rip query returns a first record p with a usable
title, job_dupe_check reports a duplicate together with the stringified
matching records, and copies title, year, poster url, nice-title flag and
classification of p onto the current job through database_updater. -/
theorem C6_duplicate_copies_prior (commit : Nat → Except String Unit)
    (job p : Job) (rest store : List Job) (F t y u v : String)
    (hF : job.crc_id = some F)
    (hfilter : dupeFilter F store = p :: rest)
    (hcommit : ∀ i, commit i = Except.ok ())
    (hnice : p.hasnicetitle = true)
    (ht : p.title = some t) (ht2 : t ≠ "")
    (hy : p.year = some y) (hy2 : y ≠ "")
    (hu : p.poster_url = some u) (hu2 : u ≠ "")
    (hv : p.video_type = some v) :
    job_dupe_check commit job store =
      ⟨true, some ((p :: rest).map get_d),
        { job with
          title := some t, year := some y, poster_url := some u,
          hasnicetitle := true, video_type := some v }, true⟩ := by
  have hgd : get_d p =
      { title := t, year := y, poster_url := u,
        hasnicetitle := "True", video_type := v } := by
    simp [get_d, ht, hy, hu, hv, hnice, pyStrOpt, pyStrBool]
  have htl : (pyLower "True" == "true") = true := by decide
  have hne : ("True" : String) ≠ "" := by decide
  simp only [job_dupe_check.eq_def, hF, hfilter, List.map_cons, hgd]
  rw [database_updater_ok commit _ job 90 hcommit]
  simp [ht2, hy2, hu2, htl, hne, List.foldl]
  exact hF

/-- C6 witness: one prior successful rip titled Alpha (2001) with the same
fingerprint; the current job picks up its title, year, poster and
classification and the check reports a duplicate. -/
theorem C6_witness :
    job0Crc.crc_id = some "F1" ∧
    dupeFilter "F1" [jobPrior] = [jobPrior] ∧
    jobPrior.title = some "Alpha (2001)" ∧
    job_dupe_check okCommit job0Crc [jobPrior] =
      ⟨true, some ([jobPrior].map get_d),
        { job0Crc with
          title := some "Alpha (2001)", year := some "2001",
          poster_url := some "posterA", hasnicetitle := true,
          video_type := some "movie" }, true⟩ :=
  ⟨rfl, rfl, rfl,
    C6_duplicate_copies_prior okCommit job0Crc jobPrior [] [jobPrior] "F1"
      "Alpha (2001)" "2001" "posterA" "movie" rfl rfl (fun _ => rfl) rfl rfl
      (by decide) rfl (by decide) rfl (by decide) rfl⟩

/-- C7: the duplicate-run guard terminates the process with exit code 1
when some non-terminal job on the same device path started at most a minute
(60 seconds) away, and returns normally when every such job started five or
more minutes (300 seconds or more) away. -/
theorem C7_run_guard (now : Int) (dev : String) (store : List Job) :
    ((∃ j, j ∈ store ∧ nonTerminal j = true ∧ j.devpath = dev ∧
        (j.start_time - now).natAbs ≤ 60) →
      duplicate_run_check now dev store = .exited 1) ∧
    ((∀ j, j ∈ store → nonTerminal j = true → j.devpath = dev →
        300 ≤ (j.start_time - now).natAbs) →
      duplicate_run_check now dev store = .proceed) := by
  constructor
  · rintro ⟨j, hj, hnt, hdev, hle⟩
    have hmem : j ∈ store.filter (fun j => nonTerminal j && j.devpath == dev) := by
      refine List.mem_filter.mpr ⟨hj, ?_⟩
      simp [hnt, hdev]
    have hmins : minsLastRun now j ≤ 1 := by
      have h2 : (j.start_time - now).natAbs / 60 ≤ 60 / 60 := Nat.div_le_div_right hle
      simpa [minsLastRun] using h2
    have hany : (store.filter (fun j => nonTerminal j && j.devpath == dev)).any
        (fun j => decide (minsLastRun now j ≤ 1)) = true :=
      List.any_eq_true.mpr ⟨j, hmem, by simpa using hmins⟩
    have hlen : 1 ≤ (store.filter (fun j => nonTerminal j && j.devpath == dev)).length := by
      have h3 := List.length_pos.mpr (List.ne_nil_of_mem hmem)
      omega
    simp [duplicate_run_check, hany, hlen]
  · intro hall
    have hany : (store.filter (fun j => nonTerminal j && j.devpath == dev)).any
        (fun j => decide (minsLastRun now j ≤ 1)) = false := by
      rw [List.any_eq_false]
      intro j hjmem
      have hj := List.mem_filter.mp hjmem
      have hsplit : nonTerminal j = true ∧ j.devpath = dev := by simpa using hj.2
      have hnt : nonTerminal j = true := hsplit.1
      have hdev : j.devpath = dev := hsplit.2
      have h300 := hall j hj.1 hnt hdev
      have h5 : 5 ≤ minsLastRun now j := by
        have h4 : 300 / 60 ≤ (j.start_time - now).natAbs / 60 := Nat.div_le_div_right h300
        simpa [minsLastRun] using h4
      have hnot : ¬ (minsLastRun now j ≤ 1) := by omega
      simpa using hnot
    by_cases hlen : 1 ≤ (store.filter (fun j => nonTerminal j && j.devpath == dev)).length
    · simp [duplicate_run_check, hany, hlen]
    · simp [duplicate_run_check, hany, hlen]

/-- C7 witness: a job on /dev/sr0 started 30 seconds before the check makes
the new run exit with code 1; the same job started 300 seconds before lets
the run proceed. -/
theorem C7_witness :
    ((jobRecent.start_time - 1000 : Int).natAbs ≤ 60 ∧
      duplicate_run_check 1000 "/dev/sr0" [jobRecent] = .exited 1) ∧
    (300 ≤ (jobOld.start_time - 1000 : Int).natAbs ∧
      duplicate_run_check 1000 "/dev/sr0" [jobOld] = .proceed) := by
  constructor
  · refine ⟨by decide, (C7_run_guard 1000 "/dev/sr0" [jobRecent]).1 ?_⟩
    exact ⟨jobRecent, by simp, rfl, rfl, by decide⟩
  · refine ⟨by decide, (C7_run_guard 1000 "/dev/sr0" [jobOld]).2 ?_⟩
    intro j hj hnt hdev
    have hjq : j = jobOld := by simpa using hj
    subst hjq
    decide

/-- A string starting with a nonempty prefix is nonempty. -/
theorem string_append_ne_empty (a b : String) (h : a ≠ "") : (a ++ b) ≠ "" := by
  intro hab
  apply h
  have hd : a.data ++ b.data = [] := congrArg String.data hab
  have ha : a.data = [] := (List.append_eq_nil.mp hd).1
  cases a
  simp_all

/-- normalizeDataJob always leaves a concrete label, the dataDiscLabel. -/
theorem normalizeDataJob_label (j0 : Job) :
    (normalizeDataJob j0).label = some (dataDiscLabel j0) := by
  by_cases hc : j0.label = some "" ∨ j0.label = none
  · simp [normalizeDataJob, dataDiscLabel, hc]
  · cases hl : j0.label with
    | none => exact absurd (Or.inr hl) hc
    | some s =>
      have hs : s ≠ "" := fun h => hc (Or.inl (by rw [hl, h]))
      simp [normalizeDataJob, dataDiscLabel, hc, hl, hs]

/-- normalizeDataJob does not touch the video type. -/
theorem normalizeDataJob_video_type (j0 : Job) :
    (normalizeDataJob j0).video_type = j0.video_type := by
  by_cases hc : j0.label = some "" ∨ j0.label = none <;> simp [normalizeDataJob, hc]

/-- The rip_data body on a failing block copy, when the primary staging
directory can be created: the partial file is removed, status fail and the
error text are recorded on the job through database_updater, removal of the
staging tree is attempted, and False is returned. -/
theorem rip_data_core_ddfail (cfgv : Cfg) (env : FsEnv)
    (commit : Nat → Except String Unit) (random_time : String) (job : Job)
    (l : String) (rc : Int) (output : String)
    (hl : job.label = some l)
    (hdd : env.ddResult = Except.error (rc, output))
    (hcommit : ∀ i, commit i = Except.ok ())
    (hex : env.pathExists (cfgv.RAW_PATH ++ "/" ++ l) = false)
    (hmk : env.mkdirOk (cfgv.RAW_PATH ++ "/" ++ l) = true)
    (hfin : make_dir env (cfgv.COMPLETED_PATH ++ "/" ++ convert_job_type job.video_type
              ++ "/" ++ l) ≠ none) :
    rip_data_core cfgv env commit random_time job =
      RipResult.returned false
        ⟨[cfgv.RAW_PATH ++ "/" ++ l ++ "/" ++ l ++ ".part"], [],
          [cfgv.RAW_PATH ++ "/" ++ l]⟩
        { job with
          status := "fail",
          errors := some ("Data rip failed with code: " ++ toString rc
            ++ "(" ++ output ++ ")") } := by
  have hrp : make_dir env (cfgv.RAW_PATH ++ "/" ++ l) = some true := by
    simp [make_dir, hex, hmk]
  obtain ⟨b, hb⟩ := Option.ne_none_iff_exists'.mp hfin
  simp only [rip_data_core.eq_def, hl, Option.getD_some, hrp, hb, hdd, if_true]
  rw [database_updater_ok commit _ job 90 hcommit]
  simp [List.foldl]
  exact hl

/-- The rip_data body on a successful block copy, when the primary staging
directory can be created: the partial file is renamed to the final iso,
removal of the staging tree is attempted, and True is returned. -/
theorem rip_data_core_ddok (cfgv : Cfg) (env : FsEnv)
    (commit : Nat → Except String Unit) (random_time : String) (job : Job)
    (l : String)
    (hl : job.label = some l)
    (hdd : env.ddResult = Except.ok ())
    (hex : env.pathExists (cfgv.RAW_PATH ++ "/" ++ l) = false)
    (hmk : env.mkdirOk (cfgv.RAW_PATH ++ "/" ++ l) = true)
    (hfin : make_dir env (cfgv.COMPLETED_PATH ++ "/" ++ convert_job_type job.video_type
              ++ "/" ++ l) ≠ none) :
    rip_data_core cfgv env commit random_time job =
      RipResult.returned true
        ⟨[], [(cfgv.RAW_PATH ++ "/" ++ l ++ "/" ++ l ++ ".part",
               cfgv.COMPLETED_PATH ++ "/" ++ convert_job_type job.video_type
                 ++ "/" ++ l ++ "/" ++ l ++ ".iso")],
          [cfgv.RAW_PATH ++ "/" ++ l]⟩ job := by
  have hrp : make_dir env (cfgv.RAW_PATH ++ "/" ++ l) = some true := by
    simp [make_dir, hex, hmk]
  obtain ⟨b, hb⟩ := Option.ne_none_iff_exists'.mp hfin
  simp only [rip_data_core.eq_def, hl, Option.getD_some, hrp, hb, hdd, if_true]

/-- C8: when the block copy of a data disc fails, rip_data removes the
partial .part file, records status fail together with a non-empty error
string on the job through database_updater, attempts removal of the staging
directory tree, and returns False. -/
theorem C8_data_rip_failure (cfgv : Cfg) (env : FsEnv)
    (commit : Nat → Except String Unit) (random_time : String) (j0 : Job)
    (rc : Int) (output : String)
    (hdd : env.ddResult = Except.error (rc, output))
    (hcommit : ∀ i, commit i = Except.ok ())
    (hex : env.pathExists (cfgv.RAW_PATH ++ "/" ++ dataDiscLabel j0) = false)
    (hmk : env.mkdirOk (cfgv.RAW_PATH ++ "/" ++ dataDiscLabel j0) = true)
    (hfin : make_dir env (cfgv.COMPLETED_PATH ++ "/" ++ convert_job_type j0.video_type
              ++ "/" ++ dataDiscLabel j0) ≠ none) :
    ∃ jb, rip_data cfgv env commit random_time j0 =
        RipResult.returned false
          ⟨[cfgv.RAW_PATH ++ "/" ++ dataDiscLabel j0 ++ "/" ++ dataDiscLabel j0 ++ ".part"],
            [], [cfgv.RAW_PATH ++ "/" ++ dataDiscLabel j0]⟩ jb ∧
      jb.status = "fail" ∧ ∃ e, jb.errors = some e ∧ e ≠ "" := by
  have hfin2 : make_dir env (cfgv.COMPLETED_PATH ++ "/"
      ++ convert_job_type (normalizeDataJob j0).video_type
      ++ "/" ++ dataDiscLabel j0) ≠ none := by
    rw [normalizeDataJob_video_type]
    exact hfin
  have hcore := rip_data_core_ddfail cfgv env commit random_time
    (normalizeDataJob j0) (dataDiscLabel j0) rc output
    (normalizeDataJob_label j0) hdd hcommit hex hmk hfin2
  rw [rip_data, hcore]
  refine ⟨_, rfl, rfl, _, rfl, ?_⟩
  exact string_append_ne_empty _ _ (string_append_ne_empty _ _
    (string_append_ne_empty _ _ (string_append_ne_empty _ _ (by decide))))

/-- C8 witness: concrete configuration and environment where the block copy
fails with returncode 1. -/
theorem C8_witness :
    envFailDD.ddResult = Except.error (1, "boom") ∧
    ∃ jb, rip_data cfg0 envFailDD okCommit "123" job0 =
        RipResult.returned false
          ⟨[cfg0.RAW_PATH ++ "/" ++ dataDiscLabel job0 ++ "/" ++ dataDiscLabel job0 ++ ".part"],
            [], [cfg0.RAW_PATH ++ "/" ++ dataDiscLabel job0]⟩ jb ∧
      jb.status = "fail" ∧ ∃ e, jb.errors = some e ∧ e ≠ "" :=
  ⟨rfl, C8_data_rip_failure cfg0 envFailDD okCommit "123" job0 1 "boom"
    rfl (fun _ => rfl) rfl rfl (by simp [make_dir, envFailDD])⟩

/-- C9: with manual waiting enabled and the override already present at
tick zero, the wait loop exits after a single five second tick, sets the
nice-title and updated flags, and the job leaves with status active. -/
theorem C9_manual_override_early_exit (ceiling : Nat)
    (override : Nat → Option String) (job : Job) (v : String)
    (hceil : 5 < ceiling) (hov : ∀ t, override t = some v) (hv : v ≠ "") :
    check_for_wait true ceiling override job =
      { job := { job with
                 title_manual := some v, updated := true,
                 hasnicetitle := true, status := "active" },
        sleptSeconds := 5 } ∧ (5 : Nat) < ceiling := by
  have h0 : (0 : Nat) < ceiling := by omega
  have hpt : pyTruthyOpt (some v) = true := by simp [pyTruthyOpt, hv]
  refine ⟨?_, hceil⟩
  simp only [check_for_wait, if_true]
  rw [waitAux]
  simp only [hov, hpt, dif_pos h0, if_true]

/-- C9 witness: ceiling 600 seconds and an override present from the
start. -/
theorem C9_witness :
    (5 : Nat) < 600 ∧
    check_for_wait true 600 overrideAlpha job0 =
      { job := { job0 with
                 title_manual := some "Alpha", updated := true,
                 hasnicetitle := true, status := "active" },
        sleptSeconds := 5 } :=
  ⟨by omega, (C9_manual_override_early_exit 600 overrideAlpha job0 "Alpha"
    (by omega) (fun _ => rfl) (by decide)).1⟩

/-- C10: a data-disc job with a missing or empty label is defaulted to
data-disc, so the staging path, the .part partial filename and the final
.iso filename are all derived from data-disc. -/
theorem C10_default_label (cfgv : Cfg) (env : FsEnv)
    (commit : Nat → Except String Unit) (random_time : String) (j0 : Job)
    (hlabel : j0.label = some "" ∨ j0.label = none)
    (hdd : env.ddResult = Except.ok ())
    (hex : env.pathExists (cfgv.RAW_PATH ++ "/" ++ "data-disc") = false)
    (hmk : env.mkdirOk (cfgv.RAW_PATH ++ "/" ++ "data-disc") = true)
    (hfin : make_dir env (cfgv.COMPLETED_PATH ++ "/" ++ convert_job_type j0.video_type
              ++ "/" ++ "data-disc") ≠ none) :
    rip_data cfgv env commit random_time j0 =
      RipResult.returned true
        ⟨[], [(cfgv.RAW_PATH ++ "/" ++ "data-disc" ++ "/" ++ "data-disc" ++ ".part",
               cfgv.COMPLETED_PATH ++ "/" ++ convert_job_type j0.video_type
                 ++ "/" ++ "data-disc" ++ "/" ++ "data-disc" ++ ".iso")],
          [cfgv.RAW_PATH ++ "/" ++ "data-disc"]⟩
        { j0 with label := some "data-disc" } := by
  have hnorm : normalizeDataJob j0 = { j0 with label := some "data-disc" } := by
    simp [normalizeDataJob, hlabel]
  rw [rip_data, hnorm]
  exact rip_data_core_ddok cfgv env commit random_time
    { j0 with label := some "data-disc" } "data-disc" rfl hdd hex hmk hfin

/-- C10 witness: a job without a label rips to data-disc derived paths. -/
theorem C10_witness :
    jobNoLabel.label = none ∧
    rip_data cfg0 envOkDD okCommit "123" jobNoLabel =
      RipResult.returned true
        ⟨[], [(cfg0.RAW_PATH ++ "/" ++ "data-disc" ++ "/" ++ "data-disc" ++ ".part",
               cfg0.COMPLETED_PATH ++ "/" ++ convert_job_type jobNoLabel.video_type
                 ++ "/" ++ "data-disc" ++ "/" ++ "data-disc" ++ ".iso")],
          [cfg0.RAW_PATH ++ "/" ++ "data-disc"]⟩
        { jobNoLabel with label := some "data-disc" } :=
  ⟨rfl, C10_default_label cfg0 envOkDD okCommit "123" jobNoLabel
    (Or.inr rfl) rfl rfl rfl (by simp [make_dir, envOkDD])⟩

end ARM
